import Mathlib

/-
Verification of the matrix component of the necessity-for-locks repository
(src/matrix.hpp and src/main.cpp) against its natural-language specification.

The C++ code works on 4x4 matrices of atomic doubles.  Every value this
program ever stores in a cell is a small integer (initializer literals and
the mutator's rand() % 4 draws), for which IEEE double arithmetic is exact,
so cells are embedded as exact rationals.  Cell storage is embedded as
`Option` so that a cell on which the constructor never executed a store is
distinguishable (the C++ atomic member is then left uninitialized).
-/

set_option maxHeartbeats 1000000
set_option maxRecDepth 8000

/-- Errors of the matrix component, following the spec's taxonomy.  The C++
source throws std::out_of_range in both situations, with distinct messages for
shape violations at construction (ConfigurationError) and per-cell bounds
violations (IndexError). -/
inductive MatrixError where
  | configurationError
  | indexError
deriving DecidableEq

/-- The value of one matrix cell; see the header comment for why a double is
embedded as an exact rational. -/
abbrev Cell := ℚ

/-- The raw storage `_data[4][4]` of AtomicMatrix4x4.  A cell holds `none`
while no store has been executed on it. -/
abbrev RawMatrix := Fin 4 → Fin 4 → Option Cell

/-- A matrix state in which every cell holds a stored value, so element loads
are total.  All matrices the tests build are of this kind. -/
abbrev Matrix4 := Fin 4 → Fin 4 → Cell

/-- One atomic store `_data[rowIndex][colIndex].store(v)` on the raw storage.
Indices are the C++ loop counters; the loops only produce values below 4. -/
def storeRaw (m : RawMatrix) (r c : Nat) (v : Cell) : RawMatrix :=
  fun i j => if i.val = r ∧ j.val = c then some v else m i j

/-- Raw storage on which no store has been executed yet (a freshly allocated
`_data` member). -/
def emptyRaw : RawMatrix := fun _ _ => none

/-- The element loop of the constructor (matrix.hpp lines 55-59): store the
supplied row values at consecutive columns starting from column `c`. -/
def storeRowElems : RawMatrix → Nat → Nat → List Cell → RawMatrix
  | m, _, _, [] => m
  | m, r, c, v :: rest => storeRowElems (storeRaw m r c v) r (c + 1) rest

/-- The column zero-fill loop of the constructor (matrix.hpp lines 61-63):
`for (; colIndex < 4; colIndex++) store 0`.  The loop advances the column
index by one each iteration, so fuel 5 is never exhausted before the loop
condition fails. -/
def zeroFillColsFuel : Nat → RawMatrix → Nat → Nat → RawMatrix
  | 0, m, _, _ => m
  | fuel + 1, m, r, c =>
    if c < 4 then zeroFillColsFuel fuel (storeRaw m r c 0) r (c + 1) else m

/-- The column zero-fill loop entered with the stated row and column index. -/
def zeroFillCols (m : RawMatrix) (r c : Nat) : RawMatrix :=
  zeroFillColsFuel 5 m r c

/-- The loop over the supplied row vectors (matrix.hpp lines 49-67): reject a
row of more than 4 values, otherwise store its elements and zero-fill its
remaining columns, advancing the row index by one.  Returns the storage and
the final row index. -/
def processRows : RawMatrix → Nat → List (List Cell) →
    Except MatrixError (RawMatrix × Nat)
  | m, r, [] => .ok (m, r)
  | m, r, rv :: rest =>
    if rv.length > 4 then .error .configurationError
    else processRows (zeroFillCols (storeRowElems m r 0 rv) r rv.length) (r + 1) rest

/-- The trailing row zero-fill loop of the constructor, exactly as written in
the source (matrix.hpp lines 69-75): the loop header increments `rowIndex`
and the loop body increments it a second time, so each iteration advances the
row index by two.  Row indices skipped this way never receive a store.  Fuel 5
is never exhausted: the index grows by 2 per iteration and the loop stops at
4. -/
def fillRemainingRowsFuel : Nat → RawMatrix → Nat → RawMatrix
  | 0, m, _ => m
  | fuel + 1, m, r =>
    if r < 4 then fillRemainingRowsFuel fuel (zeroFillCols m r 0) (r + 2) else m

/-- The trailing row zero-fill loop entered with the stated row index. -/
def fillRemainingRows (m : RawMatrix) (r : Nat) : RawMatrix :=
  fillRemainingRowsFuel 5 m r

/-- The AtomicMatrix4x4 initializer-list constructor (matrix.hpp lines 42-76):
reject more than 4 rows, store the supplied rows, then run the trailing row
zero-fill loop from the row index reached. -/
def AtomicMatrix4x4.construct (values : List (List Cell)) :
    Except MatrixError RawMatrix :=
  if values.length > 4 then .error .configurationError
  else
    match processRows emptyRaw 0 values with
    | .error e => .error e
    | .ok (m, r) => .ok (fillRemainingRows m r)

/-- The raw storage produced by the default constructor `AtomicMatrix4x4 m;`
(the initializer list defaults to an empty list). -/
def defaultConstructedRaw : RawMatrix := fillRemainingRows emptyRaw 0

/-- Bounds-checked element read (matrix.hpp lines 82-97 followed by an atomic
load): indices at or above 4 throw, in-range indices return the cell. -/
def matGet (m : Matrix4) (r c : Nat) : Except MatrixError Cell :=
  if h : 4 ≤ r ∨ 4 ≤ c then .error .indexError
  else .ok (m ⟨r, by omega⟩ ⟨c, by omega⟩)

/-- Bounds-checked element write (matrix.hpp lines 82-87 followed by an atomic
store): indices at or above 4 throw, in-range indices update the cell. -/
def matSet (m : Matrix4) (r c : Nat) (v : Cell) : Except MatrixError Matrix4 :=
  if h : 4 ≤ r ∨ 4 ≤ c then .error .indexError
  else .ok (fun i j => if i.val = r ∧ j.val = c then v else m i j)

/-- The dot-product accumulation for one output cell of operator* (matrix.hpp
lines 136-139): `dotProduct` starts at 0.0 and accumulates the four products
in index order. -/
def dotCell (A B : Matrix4) (i j : Fin 4) : Cell :=
  (((0 + A i 0 * B 0 j) + A i 1 * B 1 j) + A i 2 * B 2 j) + A i 3 * B 3 j

/-- The 16 (row, col) index pairs in the order the nested loops of operator*,
operator== and the copy operations visit them. -/
def cellIndexList : List (Fin 4 × Fin 4) :=
  [(0, 0), (0, 1), (0, 2), (0, 3),
   (1, 0), (1, 1), (1, 2), (1, 3),
   (2, 0), (2, 1), (2, 2), (2, 3),
   (3, 0), (3, 1), (3, 2), (3, 3)]

/-- The dot-product operator* (matrix.hpp lines 129-145): default-construct
the result, then store every output cell in row-major order. -/
def matMulRaw (A B : Matrix4) : RawMatrix :=
  cellIndexList.foldl
    (fun m rc => storeRaw m rc.1.val rc.2.val (dotCell A B rc.1 rc.2))
    defaultConstructedRaw

/-- The value operator* stores into output cell (i, j); the lemma
`matMulRaw_cell` proves the raw embedding holds exactly this at every cell. -/
def matMul (A B : Matrix4) : Matrix4 := fun i j => dotCell A B i j

/-- The equality operator== (matrix.hpp lines 151-163): compare the 16 cell
pairs in row-major order, false at the first mismatch, true when the loops
finish. -/
def matrixEquals (A B : Matrix4) : Bool :=
  cellIndexList.all (fun rc => decide (A rc.1 rc.2 = B rc.1 rc.2))

/-- The recorder of one multiplication (matrix.hpp lines 174-209): a left
operand, a right operand and a claimed dot product. -/
structure MultiplicationRecorder where
  leftMat : Matrix4
  rightMat : Matrix4
  dotProduct : Matrix4

/-- The recorder constructor (matrix.hpp lines 180-182): every parameter is
passed by value, so each stored matrix is a fresh per-cell copy of its
argument at construction time. -/
def MultiplicationRecorder.construct (l r p : Matrix4) : MultiplicationRecorder :=
  ⟨fun i j => l i j, fun i j => r i j, fun i j => p i j⟩

/-- isCorrect (matrix.hpp lines 185-187): recompute the product of the stored
operands and compare it to the stored dot product with operator==. -/
def MultiplicationRecorder.isCorrect (c : MultiplicationRecorder) : Bool :=
  matrixEquals c.dotProduct (matMul c.leftMat c.rightMat)

/-- The mutable state of the test fixture (main.cpp lines 98-109): the two
shared matrices, the running flag of the background modifier, the recorded
calculations, and a count of modifier threads detached so far (the embedding
of the thread spawn at main.cpp lines 55-59). -/
structure TestSuiteFixture where
  mat1 : Matrix4
  mat2 : Matrix4
  shouldModificationsContinue : Bool
  calculations : List MultiplicationRecorder
  spawnedModifierThreads : Nat

/-- runTestVariableModifier (main.cpp lines 48-60): return immediately when
the modifier is already running; otherwise set the flag and detach one new
modifier thread. -/
def runTestVariableModifier (s : TestSuiteFixture) : TestSuiteFixture :=
  if s.shouldModificationsContinue then s
  else { s with shouldModificationsContinue := true,
                spawnedModifierThreads := s.spawnedModifierThreads + 1 }

/-- One iteration of modifyingTestVariableValues (main.cpp lines 64-83): write
one cell of each shared matrix.  The randomly drawn indices and values are
parameters; the source draws indices with rand() % 4 and values from
{0.0, 1.0, 2.0, 3.0}. -/
def modifierStep (s : TestSuiteFixture) (r1 c1 : Fin 4) (v1 : Cell)
    (r2 c2 : Fin 4) (v2 : Cell) : TestSuiteFixture :=
  { s with
    mat1 := fun i j => if i = r1 ∧ j = c1 then v1 else s.mat1 i j,
    mat2 := fun i j => if i = r2 ∧ j = c2 then v2 else s.mat2 i j }

/-- One cycle of the test loops (main.cpp lines 147-153 and 167-175): build a
MultiplicationRecorder from the two shared matrices and their product, and
append it to the recorded calculations. -/
def recordCalculation (s : TestSuiteFixture) : TestSuiteFixture :=
  { s with calculations := s.calculations ++
      [MultiplicationRecorder.construct s.mat1 s.mat2 (matMul s.mat1 s.mat2)] }

/-- The value of a C++ double expression that is either an exact rational or
the IEEE NaN produced by 0.0 / 0.0. -/
inductive DoubleValue where
  | val (q : ℚ)
  | nan
deriving DecidableEq

/-- calculateAccuracy (main.cpp lines 88-96): count the recorders whose
isCorrect() holds and return `count * 100.0 / size`.  The source performs
this division with no guard on the size; when the list is empty the double
expression is 0.0 * 100.0 / 0.0, which IEEE-754 evaluates to NaN without
raising anything, and the branch below records exactly that value.  For a
non-empty list every quantity is an exact small integer, so the rational
division is the double division. -/
def calculateAccuracy (calculations : List MultiplicationRecorder) : DoubleValue :=
  let correctCalculations := (calculations.filter (fun c => c.isCorrect)).length
  if calculations.length = 0 then .nan
  else .val ((correctCalculations * 100 : ℚ) / (calculations.length : ℚ))

/-- Rows of the literal matrix _mat1 assigned in SetUp (main.cpp 115-120). -/
def mat1Init : List (List Cell) := [[1, 2, 0, 1], [0, 1, 1, 0], [1, 1, 0, 2], [1, 0, 1, 0]]

/-- Rows of the literal matrix _mat2 assigned in SetUp (main.cpp 121-126). -/
def mat2Init : List (List Cell) := [[2, 2, 0, 1], [1, 1, 1, 2], [1, 1, 3, 2], [1, 2, 1, 1]]

/-- Total matrix built from at most 4 rows of at most 4 values, reading an
omitted position as 0. -/
def mkMat (rows : List (List Cell)) : Matrix4 :=
  fun i j => (rows.getD i.val []).getD j.val 0

/-- The literal matrix _mat1 of the test fixture. -/
def M1 : Matrix4 := mkMat mat1Init

/-- The literal matrix _mat2 of the test fixture. -/
def M2 : Matrix4 := mkMat mat2Init

/-- The expected product _mat1 * _mat2 asserted at main.cpp lines 190-196. -/
def mat1DotMat2 : Matrix4 := mkMat [[5, 6, 3, 6], [2, 2, 4, 4], [5, 7, 3, 5], [3, 3, 3, 3]]

/-- The expected product _mat2 * _mat1 asserted at main.cpp lines 205-211. -/
def mat2DotMat1 : Matrix4 := mkMat [[3, 6, 3, 2], [4, 4, 3, 3], [6, 6, 3, 7], [3, 5, 3, 3]]

/-- Construction with all 16 values supplied stores exactly the literal grid:
the fixture matrix _mat1 as built by the constructor. -/
lemma construct_mat1Init (i j : Fin 4) :
    (AtomicMatrix4x4.construct mat1Init).toOption.map (fun m => m i j) =
      some (some (M1 i j)) := by
  fin_cases i <;> fin_cases j <;> decide

/-- Construction with all 16 values supplied stores exactly the literal grid:
the fixture matrix _mat2 as built by the constructor. -/
lemma construct_mat2Init (i j : Fin 4) :
    (AtomicMatrix4x4.construct mat2Init).toOption.map (fun m => m i j) =
      some (some (M2 i j)) := by
  fin_cases i <;> fin_cases j <;> decide

/-- Numeral value of the Fin 4 literal 0. -/
lemma fin4_val_zero : ((0 : Fin 4) : ℕ) = 0 := rfl

/-- Numeral value of the Fin 4 literal 1. -/
lemma fin4_val_one : ((1 : Fin 4) : ℕ) = 1 := rfl

/-- Numeral value of the Fin 4 literal 2. -/
lemma fin4_val_two : ((2 : Fin 4) : ℕ) = 2 := rfl

/-- Numeral value of the Fin 4 literal 3. -/
lemma fin4_val_three : ((3 : Fin 4) : ℕ) = 3 := rfl

/-- Every output cell of operator* holds exactly its dot-product value: the
store loop writes all 16 cells of the default-constructed result. -/
lemma matMulRaw_cell (A B : Matrix4) (i j : Fin 4) :
    matMulRaw A B i j = some (dotCell A B i j) := by
  fin_cases i <;> fin_cases j <;>
    simp [matMulRaw, cellIndexList, storeRaw, defaultConstructedRaw,
      fillRemainingRows, fillRemainingRowsFuel, zeroFillCols, zeroFillColsFuel,
      emptyRaw, fin4_val_zero, fin4_val_one, fin4_val_two, fin4_val_three]

/-- The operator== loop returns true exactly when all 16 cell pairs are
equal. -/
lemma matrixEquals_iff (A B : Matrix4) :
    matrixEquals A B = true ↔ ∀ i j : Fin 4, A i j = B i j := by
  constructor
  · intro h i j
    simp only [matrixEquals, cellIndexList, List.all_cons, List.all_nil,
      Bool.and_true, Bool.and_eq_true, decide_eq_true_eq] at h
    fin_cases i <;> fin_cases j <;> tauto
  · intro h
    simp [matrixEquals, h]

/-- A row of more than 4 values makes the row loop of the constructor throw. -/
lemma processRows_long_row (rows : List (List Cell)) :
    ∀ (m : RawMatrix) (r : Nat), (∃ rv ∈ rows, rv.length > 4) →
      processRows m r rows = .error .configurationError := by
  induction rows with
  | nil => intro m r h; simp at h
  | cons rv rest ih =>
    intro m r h
    unfold processRows
    by_cases hl : rv.length > 4
    · simp [hl]
    · rw [if_neg hl]
      apply ih
      rcases h with ⟨x, hx, hlen⟩
      rcases List.mem_cons.mp hx with hx | hx
      · exact absurd (hx ▸ hlen) hl
      · exact ⟨x, hx, hlen⟩

/-- C1: on the empty initializer list (and any initializer with fewer than 3
rows) the constructor leaves some rows with no store executed at all, instead
of zero-filling every omitted cell: the trailing fill loop advances the row
index by two per iteration, so from row 0 it stores rows 0 and 2 and skips
rows 1 and 3. -/
theorem construct_empty_skips_rows :
    AtomicMatrix4x4.construct ([] : List (List Cell)) = .ok defaultConstructedRaw
    ∧ (∀ j : Fin 4, defaultConstructedRaw 1 j = none ∧ defaultConstructedRaw 3 j = none)
    ∧ (∀ j : Fin 4, defaultConstructedRaw 0 j = some 0 ∧ defaultConstructedRaw 2 j = some 0) :=
  ⟨rfl, by decide, by decide⟩

/-- C2: calculateAccuracy with zero recorded cycles performs the division
unguarded; the double expression 0.0 * 100.0 / 0.0 silently evaluates to NaN,
so no DivisionError is raised and no explicitly defined sentinel is
returned. -/
theorem accuracy_zero_cycles_is_nan :
    calculateAccuracy [] = DoubleValue.nan := rfl

/-- C3: for every pair of 4x4 matrices A and B, operator* stores into the cell
at row i, column j the standard matrix product value, the sum over k in [0,4)
of A[i][k] * B[k][j]. -/
theorem multiply_is_standard_product (A B : Matrix4) (i j : Fin 4) :
    matMulRaw A B i j = some (∑ k : Fin 4, A i k * B k j) := by
  rw [matMulRaw_cell, Fin.sum_univ_four]
  simp only [dotCell, zero_add]

/-- C4: the literal fixture products: M1 * M2 and M2 * M1 equal the grids the
test asserts, and the two products differ, witnessing non-commutativity.
Comparisons use the code's own operator== embedding. -/
theorem literal_products_noncommutative :
    matrixEquals (matMul M1 M2) mat1DotMat2 = true
    ∧ matrixEquals (matMul M2 M1) mat2DotMat1 = true
    ∧ matrixEquals (matMul M1 M2) (matMul M2 M1) = false := by
  refine ⟨(matrixEquals_iff _ _).2 ?_, (matrixEquals_iff _ _).2 ?_, ?_⟩
  · intro i j
    fin_cases i <;> fin_cases j <;>
      norm_num [matMul, dotCell, M1, M2, mkMat, mat1Init, mat2Init, mat1DotMat2,
        fin4_val_zero, fin4_val_one, fin4_val_two, fin4_val_three]
  · intro i j
    fin_cases i <;> fin_cases j <;>
      norm_num [matMul, dotCell, M1, M2, mkMat, mat1Init, mat2Init, mat2DotMat1,
        fin4_val_zero, fin4_val_one, fin4_val_two, fin4_val_three]
  · cases hb : matrixEquals (matMul M1 M2) (matMul M2 M1)
    · rfl
    · exfalso
      have h := (matrixEquals_iff _ _).1 hb 0 0
      norm_num [matMul, dotCell, M1, M2, mkMat, mat1Init, mat2Init,
        fin4_val_zero, fin4_val_one, fin4_val_two, fin4_val_three] at h

/-- C5: a MultiplicationRecorder stores independent copies of its operands and
claimed product taken at construction; isCorrect() is true exactly when the
product of the stored operands equals the stored product; and a later mutator
step (mutating the shared fixture matrices) leaves recorded calculations
untouched, so recorded verdicts are unaffected by it. -/
theorem recorder_snapshot_isCorrect (s : TestSuiteFixture)
    (r1 c1 r2 c2 : Fin 4) (v1 v2 : Cell) :
    (MultiplicationRecorder.construct s.mat1 s.mat2 (matMul s.mat1 s.mat2)).leftMat = s.mat1
    ∧ (MultiplicationRecorder.construct s.mat1 s.mat2 (matMul s.mat1 s.mat2)).rightMat = s.mat2
    ∧ (MultiplicationRecorder.construct s.mat1 s.mat2 (matMul s.mat1 s.mat2)).dotProduct
        = matMul s.mat1 s.mat2
    ∧ (∀ c : MultiplicationRecorder,
        c.isCorrect = true ↔ matMul c.leftMat c.rightMat = c.dotProduct)
    ∧ (modifierStep (recordCalculation s) r1 c1 v1 r2 c2 v2).calculations
        = (recordCalculation s).calculations
    ∧ (recordCalculation s).calculations
        = s.calculations
          ++ [MultiplicationRecorder.construct s.mat1 s.mat2 (matMul s.mat1 s.mat2)] := by
  refine ⟨rfl, rfl, rfl, ?_, rfl, rfl⟩
  intro c
  unfold MultiplicationRecorder.isCorrect
  rw [matrixEquals_iff]
  constructor
  · intro h; funext i j; exact (h i j).symm
  · intro h i j; rw [h]

/-- C6: operator== returns true exactly when all 16 corresponding cell pairs
are equal, with no tolerance. -/
theorem equality_iff_all_cells (A B : Matrix4) :
    matrixEquals A B = true ↔ ∀ i j : Fin 4, A i j = B i j :=
  matrixEquals_iff A B

/-- C7: for (row, col) with row >= 4 or col >= 4 both the element read and the
element write fail with an IndexError, and for (row, col) in [0,4)x[0,4) both
succeed. -/
theorem access_bounds_checked (m : Matrix4) (v : Cell) (r c : Nat) :
    ((4 ≤ r ∨ 4 ≤ c) →
      matGet m r c = .error .indexError ∧ matSet m r c v = .error .indexError)
    ∧ (r < 4 → c < 4 →
      (∃ q, matGet m r c = .ok q) ∧ (∃ m2, matSet m r c v = .ok m2)) := by
  constructor
  · intro h
    constructor
    · unfold matGet; rw [dif_pos h]
    · unfold matSet; rw [dif_pos h]
  · intro h1 h2
    constructor
    · refine ⟨m ⟨r, h1⟩ ⟨c, h2⟩, ?_⟩
      unfold matGet
      rw [dif_neg (by omega)]
    · refine ⟨fun i j => if i.val = r ∧ j.val = c then v else m i j, ?_⟩
      unfold matSet
      rw [dif_neg (by omega)]

/-- Witness for C7 at concrete indices: (4, 0) is rejected and (2, 3) is
accepted. -/
theorem access_bounds_checked_witness :
    matGet (fun _ _ => 0) 4 0 = .error .indexError
    ∧ ∃ q, matGet (fun _ _ => 0) 2 3 = .ok q :=
  ⟨((access_bounds_checked (fun _ _ => 0) 0 4 0).1 (Or.inl (by decide))).1,
   ((access_bounds_checked (fun _ _ => 0) 0 2 3).2 (by decide) (by decide)).1⟩

/-- C8: constructing from more than 4 rows, or from rows any one of which has
more than 4 values, fails with a ConfigurationError. -/
theorem construct_rejects_oversize (values : List (List Cell))
    (h : values.length > 4 ∨ ∃ rv ∈ values, rv.length > 4) :
    AtomicMatrix4x4.construct values = .error .configurationError := by
  unfold AtomicMatrix4x4.construct
  by_cases hn : values.length > 4
  · rw [if_pos hn]
  · rw [if_neg hn]
    rcases h with h | h
    · exact absurd h hn
    · rw [processRows_long_row values emptyRaw 0 h]

/-- Witness for C8: five rows are rejected, and a single row of five values is
rejected. -/
theorem construct_rejects_oversize_witness :
    AtomicMatrix4x4.construct [[], [], [], [], []] = .error .configurationError
    ∧ AtomicMatrix4x4.construct [[0, 0, 0, 0, 0]] = .error .configurationError :=
  ⟨construct_rejects_oversize [[], [], [], [], []] (Or.inl (by decide)),
   construct_rejects_oversize [[0, 0, 0, 0, 0]]
     (Or.inr ⟨[0, 0, 0, 0, 0], by simp, by decide⟩)⟩

/-- C9: calling runTestVariableModifier while the flag is already set is a
no-op returning the state unchanged (no second thread detached, nothing
else modified); calling it while idle sets the flag, detaches exactly one
thread, and changes nothing else. -/
theorem start_modifier_idempotent (s : TestSuiteFixture) :
    (s.shouldModificationsContinue = true → runTestVariableModifier s = s)
    ∧ (s.shouldModificationsContinue = false →
        runTestVariableModifier s =
          { s with shouldModificationsContinue := true,
                   spawnedModifierThreads := s.spawnedModifierThreads + 1 }) := by
  constructor
  · intro h; simp [runTestVariableModifier, h]
  · intro h; simp [runTestVariableModifier, h]

/-- Witness for C9 at concrete fixture states: starting while running is the
identity; starting while idle sets the flag and detaches one thread. -/
theorem start_modifier_idempotent_witness :
    runTestVariableModifier ⟨M1, M2, true, [], 1⟩ = ⟨M1, M2, true, [], 1⟩
    ∧ runTestVariableModifier ⟨M1, M2, false, [], 0⟩ = ⟨M1, M2, true, [], 1⟩ :=
  ⟨(start_modifier_idempotent ⟨M1, M2, true, [], 1⟩).1 rfl,
   (start_modifier_idempotent ⟨M1, M2, false, [], 0⟩).2 rfl⟩

/-- C10: operator* stores a value into all 16 cells of its result before
returning, and the stored value is determined by the operands' cells (it is
the dot-product value), so no cell the default construction left unwritten is
ever exposed. -/
theorem multiply_writes_all_cells (A B : Matrix4) (i j : Fin 4) :
    ∃ q : Cell, matMulRaw A B i j = some q ∧ q = matMul A B i j :=
  ⟨dotCell A B i j, matMulRaw_cell A B i j, rfl⟩
